import Mathlib

/-!
Verification development for the execution-job orchestrator of the
`ai-compiler-ide` repository.

The definitions below are shallow embeddings of the TypeScript sources:

* `src/backend/src/services/snippets.ts` — the local code runner
  (`executeWithProcess`, the per-language executors, `runCode`,
  `cleanupTempFiles`, the shared `TEMP_DIR`).
* the compile-routes module (`compileRoutes`: the POST `/` submit handler,
  GET `/:jobId` status handler, `processCompilation`,
  `getJudge0LanguageId`, `executeLocally`).
* `CompilationService` (Judge0-backed service: `submitCompilation`,
  `getCompilationStatus`, `validateCompilationRequest`,
  `pollJudge0Results`, `updateJobStatus`, `scanForMaliciousCode`).

Side effects (network, the child process, the database, Redis) are made
explicit: each embedded function takes the outcome of its external
interactions as an argument and returns the values the source writes
(responses, stored job records, kill signals sent).
-/

namespace AiCompilerIde

/-! ### Shared data model -/

/-- `ExecutionResult.status` values in `snippets.ts`. -/
inductive ExecStatus
  | success
  | error
  | timeout
deriving DecidableEq, Repr

/-- Job lifecycle states (`'pending' | 'running' | 'success' | 'error' | 'timeout'`). -/
inductive JobStatus
  | pending
  | running
  | success
  | error
  | timeout
deriving DecidableEq, Repr

/-- The three terminal job states. -/
def JobStatus.isTerminal : JobStatus → Bool
  | .success => true
  | .error => true
  | .timeout => true
  | _ => false

/-- Every local `ExecStatus` maps to a terminal job state. -/
def ExecStatus.toJobStatus : ExecStatus → JobStatus
  | .success => .success
  | .error => .error
  | .timeout => .timeout

/-- `ExecutionResult` from `snippets.ts`. -/
structure ExecutionResult where
  status : ExecStatus
  stdout : String
  stderr : String
  exitCode : Int
  executionTimeMs : Nat
  memoryUsedKb : Option Nat := none
deriving DecidableEq, Repr

/-- One `(path, content)` source file pair. -/
structure SourceFile where
  path : String
  content : String
deriving DecidableEq, Repr

/-- JavaScript's `.toLowerCase()` as used on the repository's language
identifiers and scan inputs (all ASCII): lower-cases each character. -/
def lowerAscii (s : String) : String := String.mk (s.data.map Char.toLower)

/-- JavaScript `x || d` on an optional string: `none` and the empty string
both fall through to the default. -/
def jsOrStr (o : Option String) (d : String) : String :=
  match o with
  | some s => if s.isEmpty then d else s
  | none => d

/-- JavaScript `x || d` on an optional integer: `none` and `0` both fall
through to the default. -/
def jsOrInt (o : Option Int) (d : Int) : Int :=
  match o with
  | some i => if i = 0 then d else i
  | none => d

/-! ### Local executor: `executeWithProcess` (snippets.ts)

The child process's observable behaviour during one run is the input; the
embedding returns the resolved `ExecutionResult` together with the list of
kill signals the handler sent.  The source arms a `setTimeout` that, when
it fires, sets `killed = true` and calls `process.kill('SIGTERM')` — a
signal to the immediate child process only (the process is not spawned
detached and no negative pid is used, so no process group is signalled). -/

/-- What a kill signal is addressed to. -/
inductive KillTarget
  | childProcess
  | processGroup
deriving DecidableEq, Repr

/-- A signal sent by the executor. -/
structure KillSig where
  signal : String
  target : KillTarget
deriving DecidableEq, Repr

/-- Observable behaviour of one spawned child process. -/
structure ProcBehavior where
  /-- `some msg`: the `'error'` event fired (e.g. ENOENT for a missing binary). -/
  spawnError : Option String
  /-- chunks delivered on the `'data'` events of stdout, in order. -/
  stdoutChunks : List String
  /-- chunks delivered on the `'data'` events of stderr, in order. -/
  stderrChunks : List String
  /-- whether the `'close'` event fired before the timeout timer. -/
  exitsWithinTimeout : Bool
  /-- the exit code passed to `'close'` (`none` = JavaScript `null`). -/
  exitCode : Option Int
  /-- wall-clock `Date.now() - startTime` observed at resolution. -/
  elapsedMs : Nat
deriving DecidableEq, Repr

/-- Result of one `executeWithProcess` run: the promise value plus the
kill signals sent along the way. -/
structure ProcessRun where
  result : ExecutionResult
  kills : List KillSig
deriving DecidableEq, Repr

/-- Shallow embedding of `executeWithProcess` in `snippets.ts`.
`timeoutOpt` is `options.timeout` (default 30000 ms).  Stdout/stderr are
accumulated by string concatenation with no size bound, exactly as the
source's `stdout += data.toString()` handlers do. -/
def executeWithProcess (timeoutOpt : Option Nat) (b : ProcBehavior) : ProcessRun :=
  let timeout := timeoutOpt.getD 30000
  match b.spawnError with
  | some msg =>
    { result := { status := .error, stdout := "", stderr := msg, exitCode := 1,
                  executionTimeMs := b.elapsedMs },
      kills := [] }
  | none =>
    let stdout := b.stdoutChunks.foldl (· ++ ·) ""
    let stderr := b.stderrChunks.foldl (· ++ ·) ""
    if b.exitsWithinTimeout then
      { result := { status := if b.exitCode = some 0 then .success else .error,
                    stdout := stdout, stderr := stderr,
                    exitCode := b.exitCode.getD 0,
                    executionTimeMs := b.elapsedMs },
        kills := [] }
    else
      -- timeout timer fired: `killed = true; process.kill('SIGTERM')`
      { result := { status := .timeout, stdout := stdout,
                    stderr := stderr ++ "\nExecution timed out after " ++ toString timeout ++ "ms",
                    exitCode := 124,
                    executionTimeMs := b.elapsedMs },
        kills := [{ signal := "SIGTERM", target := .childProcess }] }

/-! ### Local runner dispatch: `runCode` (snippets.ts) -/

/-- The language aliases with a dedicated case in `runCode`'s `switch`. -/
def handledLanguages : List String :=
  ["javascript", "js", "typescript", "ts", "python", "python3", "py",
   "ruby", "rb", "php", "shell", "bash", "sh", "lua", "perl", "pl"]

/-- The stdout of `runCode`'s default branch: a canned message with a
500-character preview of the source. -/
def cannedStdout (language code : String) : String :=
  "Code syntax for " ++ language ++ " appears valid!\n\n" ++
  "📝 For full " ++ language ++ " compilation, the Judge0 API or a local compiler is required.\n\n" ++
  "Code preview:\n" ++ code.take 500 ++ (if 500 < code.length then "..." else "")

/-- Outcome of `runCode`: either control is dispatched to one of the
per-language executors, or (default branch) an immediate result is
returned without running anything. -/
inductive RunDispatch
  | executeJavaScript
  | executeTypeScript
  | executePython
  | executeRuby
  | executePHP
  | executeShell
  | executeLua
  | executePerl
  | immediate (r : ExecutionResult)
deriving DecidableEq, Repr

/-- Shallow embedding of `runCode`'s dispatch in `snippets.ts`. -/
def runCode (language code : String) : RunDispatch :=
  let n := lowerAscii language
  if n = "javascript" ∨ n = "js" then .executeJavaScript
  else if n = "typescript" ∨ n = "ts" then .executeTypeScript
  else if n = "python" ∨ n = "python3" ∨ n = "py" then .executePython
  else if n = "ruby" ∨ n = "rb" then .executeRuby
  else if n = "php" then .executePHP
  else if n = "shell" ∨ n = "bash" ∨ n = "sh" then .executeShell
  else if n = "lua" then .executeLua
  else if n = "perl" ∨ n = "pl" then .executePerl
  else .immediate { status := .success, stdout := cannedStdout language code,
                    stderr := "", exitCode := 0, executionTimeMs := 0 }

/-! ### Temp file materialization (snippets.ts)

`TEMP_DIR = path.join(os.tmpdir(), 'ai-ide-runner')` is one directory
shared by every execution; `executePython` writes to
``path.join(TEMP_DIR, `python_${Date.now()}.py`)``. -/

/-- `TEMP_DIR`, parameterised by the host's `os.tmpdir()`. -/
def tempDir (osTmp : String) : String := osTmp ++ "/ai-ide-runner"

/-- The temp path `executePython` materialises at millisecond `now`. -/
def pythonTempFile (osTmp : String) (now : Nat) : String :=
  tempDir osTmp ++ "/python_" ++ toString now ++ ".py"

/-- A submitted Python job as seen by the materializer: its source text and
the `Date.now()` millisecond at which `executePython` runs. -/
structure PyJob where
  code : String
  submitMs : Nat
deriving DecidableEq, Repr

/-- The temp path a Python job's source is written to. -/
def PyJob.tempPath (osTmp : String) (j : PyJob) : String :=
  pythonTempFile osTmp j.submitMs

/-! ### Compile routes (part of the backend routes module)

`compileRoutes` keeps jobs in a module-level `Map` (`compilationJobs`),
creates a job on POST `/` and mutates it from `processCompilation`. -/

/-- A job record as stored in the `compilationJobs` map.  Fields that are
`undefined` until execution finishes are `Option`s. -/
structure RouteJob where
  id : String
  userId : String
  workspaceId : String
  language : String
  sourceFiles : List SourceFile
  status : JobStatus
  stdout : Option String := none
  stderr : Option String := none
  exitCode : Option Int := none
  executionTimeMs : Option Nat := none
  memoryUsedKb : Option Nat := none
  createdAt : Nat
  completedAt : Option Nat := none
deriving DecidableEq, Repr

/-- Keys of the route module's `LANGUAGE_CONFIGS` table. -/
def routeLanguages : List String :=
  ["javascript", "typescript", "python", "cpp", "c", "rust", "go",
   "java", "kotlin", "scala", "csharp", "fsharp", "php", "ruby", "perl",
   "lua", "shell", "powershell", "haskell", "ocaml", "clojure", "swift",
   "dart", "r", "julia", "nim", "zig", "v"]

/-- Request body of POST `/`.  A missing or non-array `sourceFiles` field is
`none`; JavaScript truthiness makes a missing `workspaceId`/`language`
indistinguishable from the empty string. -/
structure SubmitBody where
  workspaceId : String
  language : String
  sourceFiles : Option (List SourceFile)
deriving DecidableEq, Repr

/-- HTTP response of the submit handler. -/
inductive SubmitResponse
  | badRequest (error : String)
  | accepted (jobId : String)
deriving DecidableEq, Repr

/-- Shallow embedding of the POST `/` submit handler of `compileRoutes`.
`jobId` is the `uuidv4()` drawn by the handler and `now` is `new Date()`.
Returns the HTTP response and the updated `compilationJobs` store. -/
def handleSubmitRoute (body : SubmitBody) (userId jobId : String) (now : Nat)
    (store : List (String × RouteJob)) : SubmitResponse × List (String × RouteJob) :=
  if body.workspaceId.isEmpty ∨ body.language.isEmpty ∨ body.sourceFiles = none then
    (.badRequest "Invalid request parameters", store)
  else if body.language ∉ routeLanguages then
    (.badRequest ("Unsupported language: " ++ body.language), store)
  else
    let job : RouteJob :=
      { id := jobId, userId := userId, workspaceId := body.workspaceId,
        language := body.language, sourceFiles := body.sourceFiles.getD [],
        status := .pending, createdAt := now }
    (.accepted jobId, (jobId, job) :: store)

/-- HTTP response of the GET `/:jobId` status handler. -/
inductive StatusResponse
  | notFound (error : String)
  | ok (job : RouteJob)
deriving DecidableEq, Repr

/-- Shallow embedding of the GET `/:jobId` handler: a missing job and a job
owned by a different user take the same 404 branch. -/
def handleGetStatus (store : List (String × RouteJob)) (userId jobId : String) :
    StatusResponse :=
  match store.lookup jobId with
  | none => .notFound "Compilation job not found"
  | some job =>
    if job.userId ≠ userId then .notFound "Compilation job not found"
    else .ok job

/-- `getJudge0LanguageId`'s `languageMap` in the route module. -/
def judge0LanguageIds : List (String × Nat) :=
  [("javascript", 63), ("python", 71), ("cpp", 54), ("c", 50), ("java", 62),
   ("typescript", 74), ("csharp", 51), ("php", 68), ("ruby", 72), ("go", 60),
   ("rust", 73), ("kotlin", 78), ("scala", 81), ("swift", 83), ("r", 80),
   ("haskell", 61), ("lua", 64), ("perl", 85), ("dart", 90)]

/-- `getJudge0LanguageId`: `languageMap[language] || null`. -/
def getJudge0LanguageId (language : String) : Option Nat :=
  judge0LanguageIds.lookup language

/-- The four fields `executeLocally` returns. -/
structure LocalRunResult where
  status : ExecStatus
  stdout : String
  stderr : String
  exitCode : Int
deriving DecidableEq, Repr

/-- Shallow embedding of `executeLocally`: it awaits `runCode` and, if that
promise rejects, catches the error and reports an `error` result itself —
it never throws to its caller. -/
def executeLocally (runOutcome : Except String ExecutionResult) : LocalRunResult :=
  match runOutcome with
  | .ok r => { status := r.status, stdout := r.stdout, stderr := r.stderr, exitCode := r.exitCode }
  | .error msg => { status := .error, stdout := "", stderr := msg, exitCode := 1 }

/-- Outcome of the `fetch` to the Judge0 submissions endpoint in
`processCompilation` (submitted with `wait=true`). -/
inductive RemoteSubmission
  /-- `response.ok`, with the parsed JSON body; `timeMs`/`memKb` stand for
  the already-rounded `Math.round((time || 0) * 1000)` and
  `Math.round(memory || 0)`. -/
  | ok (statusId : Option Int) (stdout stderr compileOutput : Option String)
       (timeMs memKb : Nat)
  /-- `response.ok` is false (non-2xx status). -/
  | notOk
  /-- `fetch` rejected (network error). -/
  | networkError
deriving DecidableEq, Repr

/-- External interactions of one `processCompilation` run. -/
structure Part008Env where
  submission : RemoteSubmission
  /-- what `runCode` resolves to when the local fallback runs. -/
  runOutcome : Except String ExecutionResult
  /-- `new Date()` at completion. -/
  tEnd : Nat
  /-- the `Math.round(Math.random() * 1000 + 100)` mock timing. -/
  randTime : Nat
  /-- the `Math.round(Math.random() * 10000 + 1000)` mock memory. -/
  randMem : Nat
deriving Repr

/-- The fallback branch: `Object.assign(job, result, {completedAt, ...})`
with the local result. -/
def applyLocalResult (job : RouteJob) (r : LocalRunResult) (tEnd randTime randMem : Nat) :
    RouteJob :=
  { job with status := r.status.toJobStatus, stdout := some r.stdout,
             stderr := some r.stderr, exitCode := some r.exitCode,
             completedAt := some tEnd, executionTimeMs := some randTime,
             memoryUsedKb := some randMem }

/-- Final job record written by `processCompilation`.  An unsupported remote
language throws inside the `try`, and both that throw and a fetch rejection
land in the `catch` block's local fallback; a non-OK response takes the
explicit fallback branch.  `executeLocally` cannot throw, so the inner
`catch (fallbackError)` branch is unreachable. -/
def processCompilationFinal (job : RouteJob) (env : Part008Env) : RouteJob :=
  let running := { job with status := JobStatus.running }
  match getJudge0LanguageId job.language with
  | none =>
    applyLocalResult running (executeLocally env.runOutcome) env.tEnd env.randTime env.randMem
  | some _ =>
    match env.submission with
    | .networkError =>
      applyLocalResult running (executeLocally env.runOutcome) env.tEnd env.randTime env.randMem
    | .notOk =>
      applyLocalResult running (executeLocally env.runOutcome) env.tEnd env.randTime env.randMem
    | .ok statusId stdoutOpt stderrOpt compileOutputOpt timeMs memKb =>
      { running with
        status := if statusId = some (3 : Int) then .success else .error,
        stdout := some (stdoutOpt.getD ""),
        stderr := some (jsOrStr stderrOpt (jsOrStr compileOutputOpt "")),
        exitCode := some (if statusId = some (3 : Int) then (0 : Int) else 1),
        completedAt := some env.tEnd,
        executionTimeMs := some timeMs,
        memoryUsedKb := some memKb }

/-- The states a job passes through during `processCompilation`: the stored
`pending` record, the `running` mutation, and the terminal record. -/
def processCompilationTrace (job : RouteJob) (env : Part008Env) : List RouteJob :=
  [job, { job with status := JobStatus.running }, processCompilationFinal job env]

/-! ### CompilationService (Judge0-backed service)

`CompilationService.submitCompilation` validates, checks workspace
permissions, inserts a `pending` row, submits to Judge0 and spawns
`pollJudge0Results`; any thrown error is caught, recorded on the job via
`updateJobStatus(jobId, 'error', ...)` and re-thrown to the caller. -/

/-- `CompilationRequest` of the service. -/
structure CompilationRequest where
  workspaceId : String
  language : String
  sourceFiles : List SourceFile
  flags : Option String := none
  input : Option String := none
deriving DecidableEq, Repr

/-- Keys of the service's `LANGUAGE_CONFIGS` with their Judge0 ids. -/
def serviceLanguages : List (String × Nat) :=
  [("javascript", 63), ("typescript", 74), ("python", 71), ("cpp", 54),
   ("c", 50), ("java", 62)]

/-- `sourceFiles.reduce((sum, file) => sum + file.content.length, 0)`. -/
def totalSize (files : List SourceFile) : Nat :=
  files.foldl (fun sum f => sum + f.content.length) 0

/-! #### `scanForMaliciousCode`'s pattern matcher

The service's regexes are of three shapes: a case-insensitive literal
(`/subprocess/i`), a literal followed by `\s*(` (`/system\s*\(/i`), and
`/import\s+os/i`.  The matcher below implements exactly those shapes over
lower-cased character lists (`\s` is approximated by the four common
whitespace characters). -/

/-- Whitespace as matched by the service's `\s` (common cases). -/
def isWsChar (c : Char) : Bool :=
  c = ' ' ∨ c = '\t' ∨ c = '\n' ∨ c = '\r'

/-- Does `hay` start with `pat`? -/
def startsWithList : List Char → List Char → Bool
  | _, [] => true
  | [], _ :: _ => false
  | c :: cs, p :: ps => c = p && startsWithList cs ps

/-- Does `pat` occur anywhere in `hay`? -/
def containsList : List Char → List Char → Bool
  | [], pat => pat.isEmpty
  | c :: cs, pat => startsWithList (c :: cs) pat || containsList cs pat

/-- `\s*\(`: zero or more whitespace characters, then an opening paren. -/
def wsStarParen : List Char → Bool
  | [] => false
  | c :: cs => if c = '(' then true else if isWsChar c then wsStarParen cs else false

/-- Some occurrence of `lit` is followed by `\s*\(`. -/
def litThenParen (lit : List Char) : List Char → Bool
  | [] => false
  | c :: cs =>
    (startsWithList (c :: cs) lit && wsStarParen ((c :: cs).drop lit.length))
      || litThenParen lit cs

/-- `\s*lit`: zero or more whitespace characters, then `lit` starts. -/
def wsStarThen (lit : List Char) : List Char → Bool
  | [] => lit.isEmpty
  | c :: cs => if isWsChar c then wsStarThen lit cs else startsWithList (c :: cs) lit

/-- Some occurrence of `a` is followed by `\s+b`. -/
def litWsLit (a b : List Char) : List Char → Bool
  | [] => false
  | c :: cs =>
    (startsWithList (c :: cs) a &&
      (match (c :: cs).drop a.length with
       | [] => false
       | d :: ds => isWsChar d && wsStarThen b ds))
      || litWsLit a b cs

/-- One of the service's `maliciousPatterns`. -/
inductive MalPattern
  /-- `/lit\s*\(/i` -/
  | call (lit : String)
  /-- `/a\s+b/i` -/
  | seq (a b : String)
  /-- `/lit/i` -/
  | plain (lit : String)
deriving DecidableEq, Repr

/-- The `maliciousPatterns` array of `scanForMaliciousCode`, in order. -/
def maliciousPatterns : List MalPattern :=
  [.call "system", .call "exec", .call "eval", .seq "import" "os",
   .plain "subprocess", .plain "__import__", .call "file", .call "open",
   .plain "socket", .plain "urllib", .plain "requests"]

/-- `pattern.test(content)` for one pattern (case-insensitive). -/
def MalPattern.test (p : MalPattern) (content : String) : Bool :=
  let hay := (lowerAscii content).toList
  match p with
  | .call lit => litThenParen (lowerAscii lit).toList hay
  | .seq a b => litWsLit (lowerAscii a).toList (lowerAscii b).toList hay
  | .plain lit => containsList hay (lowerAscii lit).toList

/-- The warnings `scanForMaliciousCode` logs: one per (file, pattern)
match.  The scan has no other effect — it never throws or blocks. -/
def scanWarnings (files : List SourceFile) : List String :=
  files.flatMap fun f =>
    (maliciousPatterns.filter (fun p => p.test f.content)).map
      (fun _ => "Potentially malicious code detected in " ++ f.path)

/-- Shallow embedding of `CompilationService.validateCompilationRequest`.
The checks run in source order; the malicious-code scan at the end only
produces log warnings and cannot reject. -/
def validateCompilationRequest (r : CompilationRequest) : Except String Unit :=
  if r.workspaceId.isEmpty then .error "Workspace ID is required"
  else if r.language.isEmpty then .error "Language is required"
  else if r.sourceFiles.isEmpty then .error "At least one source file is required"
  else if 1024 * 1024 < totalSize r.sourceFiles then .error "Source code size exceeds 1MB limit"
  else
    let _ := scanWarnings r.sourceFiles
    .ok ()

/-- A `compilation_jobs` row. -/
structure ServiceJob where
  id : String
  userId : String
  workspaceId : String
  language : String
  status : JobStatus
  stdout : Option String := none
  stderr : Option String := none
  exitCode : Option Int := none
  executionTimeMs : Option Nat := none
  memoryUsedKb : Option Nat := none
  createdAt : Nat
  completedAt : Option Nat := none
deriving DecidableEq, Repr

/-- External interactions of one `submitCompilation` call. -/
structure ServiceEnv where
  /-- outcome of `checkWorkspacePermissions` (throws on failure). -/
  workspacePerm : Except String Unit
  /-- outcome of `submitToJudge0`: a token, or the submission failed
  (`submitToJudge0` catches the axios error and throws
  `'Failed to submit compilation job'`). -/
  judge0Submit : Except Unit String
  /-- insertion timestamp of the job row. -/
  createdAt : Nat
  /-- `new Date()` used by `updateJobStatus` for `completed_at`. -/
  now : Nat
deriving Repr

/-- The value `submitCompilation` returns on success. -/
structure SubmitOk where
  jobId : String
  status : JobStatus
  createdAt : Nat
deriving DecidableEq, Repr

/-- Shallow embedding of `CompilationService.submitCompilation`: returns
what the caller observes (the pending result, or the re-thrown error
message) together with this job's `compilation_jobs` row after the call
(`none` when no row was inserted).  In the catch path `updateJobStatus`
targets the row by id, so when validation or permission checks failed
before `createCompilationJob` ran, the update matches no row. -/
def submitCompilation (userId : String) (r : CompilationRequest) (jobId : String)
    (env : ServiceEnv) : Except String SubmitOk × Option ServiceJob :=
  match validateCompilationRequest r with
  | .error e => (.error e, none)
  | .ok _ =>
    match env.workspacePerm with
    | .error e => (.error e, none)
    | .ok _ =>
      match (serviceLanguages.lookup r.language) with
      | none => (.error ("Unsupported language: " ++ r.language), none)
      | some _ =>
        let job : ServiceJob :=
          { id := jobId, userId := userId, workspaceId := r.workspaceId,
            language := r.language, status := .pending, createdAt := env.createdAt }
        match env.judge0Submit with
        | .error _ =>
          -- `submitToJudge0` threw; the catch records the failure on the
          -- job and re-throws it to the caller.
          (.error "Failed to submit compilation job",
           some { job with status := .error,
                           stderr := some "Failed to submit compilation job",
                           completedAt := some env.now })
        | .ok _ =>
          (.ok { jobId := jobId, status := .pending, createdAt := env.createdAt },
           some job)

/-- The fields `formatCompilationResult` projects out of a row. -/
structure CompilationView where
  jobId : String
  status : JobStatus
  stdout : Option String
  stderr : Option String
  exitCode : Option Int
  executionTimeMs : Option Nat
  memoryUsedKb : Option Nat
  createdAt : Nat
  completedAt : Option Nat
deriving DecidableEq, Repr

/-- `formatCompilationResult`. -/
def formatCompilationResult (j : ServiceJob) : CompilationView :=
  { jobId := j.id, status := j.status, stdout := j.stdout, stderr := j.stderr,
    exitCode := j.exitCode, executionTimeMs := j.executionTimeMs,
    memoryUsedKb := j.memoryUsedKb, createdAt := j.createdAt,
    completedAt := j.completedAt }

/-- `db('compilation_jobs').where({id: jobId, user_id: userId}).first()`. -/
def dbFindJob (dbJobs : List ServiceJob) (jobId userId : String) : Option ServiceJob :=
  dbJobs.find? (fun j => j.id = jobId && j.userId = userId)

/-- Shallow embedding of `CompilationService.getCompilationStatus`.
`cache` is the Redis entry under `compilation:jobId` (if any).  A cache hit
owned by another user falls through to the ownership-filtered database
query, which returns `null` exactly as a nonexistent id does. -/
def getCompilationStatus (cache : Option ServiceJob) (dbJobs : List ServiceJob)
    (userId jobId : String) : Option CompilationView :=
  match cache with
  | some r =>
    if r.userId = userId then some (formatCompilationResult r)
    else (dbFindJob dbJobs jobId userId).map formatCompilationResult
  | none => (dbFindJob dbJobs jobId userId).map formatCompilationResult

/-! #### `pollJudge0Results`

The poller fires every 1000 ms (`setTimeout(poll, 1000)`), increments
`attempts` at the top of each run, and stops as soon as it writes a job
update: a terminal Judge0 status writes the mapped result; a
still-processing status (`id <= 2`) at the 30th attempt writes `timeout`;
a request error at the 30th attempt writes `error`.  The `attempts`
counter bounds the recursion; `fuel` below carries that bound structurally
and is never exhausted when starting from `attempts = 0, fuel = 30`. -/

/-- `maxAttempts` in `pollJudge0Results`. -/
def maxAttempts : Nat := 30

/-- The fixed `setTimeout` delay between polls, in milliseconds. -/
def pollIntervalMs : Nat := 1000

/-- Outcome of one GET to the Judge0 submissions endpoint. -/
inductive PollOutcome
  /-- a response, with its parsed fields; `timeMs`/`memKb` stand for the
  already-rounded `Math.round((time || 0) * 1000)` and `memory || 0`. -/
  | response (statusId : Option Int) (stdout stderr compileOutput : Option String)
             (timeMs memKb : Nat)
  /-- the request threw (network error, non-2xx, malformed response). -/
  | requestError
deriving DecidableEq, Repr

/-- The update `pollJudge0Results` passes to `updateJobStatus` when it
finishes. -/
structure JobUpdate where
  status : JobStatus
  stdout : Option String := none
  stderr : Option String := none
  exitCode : Option Int := none
  executionTimeMs : Option Nat := none
  memoryUsedKb : Option Nat := none
deriving DecidableEq, Repr

/-- `if (result.status?.id <= 2)`: JavaScript compares `undefined <= 2` as
false, so a missing status id is treated as complete. -/
def stillProcessing (statusId : Option Int) : Bool :=
  match statusId with
  | some i => i ≤ 2
  | none => false

/-- The update written for a completed Judge0 result: status `success`
exactly for id 3, stderr falling back to `compile_output`, and
`exit_code = (id === 3 ? 0 : id || -1)`. -/
def judge0CompleteUpdate (statusId : Option Int) (stdout stderr compileOutput : Option String)
    (timeMs memKb : Nat) : JobUpdate :=
  { status := if statusId = some (3 : Int) then .success else .error,
    stdout := some (stdout.getD ""),
    stderr := some (jsOrStr stderr (compileOutput.getD "")),
    exitCode := some (if statusId = some (3 : Int) then (0 : Int) else jsOrInt statusId (-1)),
    executionTimeMs := some timeMs,
    memoryUsedKb := some memKb }

/-- The `timeout` update written when the attempt bound is reached on a
still-processing response. -/
def pollTimeoutUpdate : JobUpdate :=
  { status := .timeout, stderr := some "Compilation timed out after 30 seconds" }

/-- The `error` update written when the attempt bound is reached on a
request error. -/
def pollFailedUpdate : JobUpdate :=
  { status := .error, stderr := some "Failed to get compilation results" }

/-- One run of `poll`: `resp n` is the outcome of the `n`-th attempt
(`n = attempts + 1` at the top of the run).  `fuel` makes the recursion
structural; starting from the service's entry point (`attempts = 0`,
`fuel = maxAttempts`) the guard `attempts + 1 < maxAttempts` keeps it from
ever reaching zero, so the `fuel = 0` fallback is unreachable there. -/
def pollAux (resp : Nat → PollOutcome) : Nat → Nat → JobUpdate
  | _, 0 => pollFailedUpdate
  | attempts, fuel + 1 =>
    let att := attempts + 1
    match resp att with
    | .requestError =>
      if att < maxAttempts then pollAux resp att fuel
      else pollFailedUpdate
    | .response statusId stdout stderr compileOutput timeMs memKb =>
      if stillProcessing statusId then
        if att < maxAttempts then pollAux resp att fuel
        else pollTimeoutUpdate
      else judge0CompleteUpdate statusId stdout stderr compileOutput timeMs memKb

/-- Shallow embedding of `pollJudge0Results`: the single job update the
background poller eventually writes for a job on the remote path. -/
def pollJudge0Results (resp : Nat → PollOutcome) : JobUpdate :=
  pollAux resp 0 maxAttempts

/-- `CompilationService.updateJobStatus`: applies an update to this job's
row (if it exists) — and stamps `completed_at = new Date()` no matter
which status is written. -/
def updateJobStatus (row : Option ServiceJob) (u : JobUpdate) (now : Nat) :
    Option ServiceJob :=
  row.map fun j =>
    { j with status := u.status,
             stdout := if u.stdout.isSome then u.stdout else j.stdout,
             stderr := if u.stderr.isSome then u.stderr else j.stderr,
             exitCode := if u.exitCode.isSome then u.exitCode else j.exitCode,
             executionTimeMs := if u.executionTimeMs.isSome then u.executionTimeMs else j.executionTimeMs,
             memoryUsedKb := if u.memoryUsedKb.isSome then u.memoryUsedKb else j.memoryUsedKb,
             completedAt := some now }

/-! ### Theorems -/

/-- C2 counterexample: at a concrete run whose child does not exit before
the timeout, the executor does send a kill — but every signal it sends
targets the immediate child process only, never the process group, so the
claimed process-group termination does not happen. -/
theorem executeWithProcess_no_group_kill :
    (executeWithProcess none
      { spawnError := none, stdoutChunks := [], stderrChunks := [],
        exitsWithinTimeout := false, exitCode := none, elapsedMs := 30000 }).kills ≠ [] ∧
    ((executeWithProcess none
      { spawnError := none, stdoutChunks := [], stderrChunks := [],
        exitsWithinTimeout := false, exitCode := none, elapsedMs := 30000 }).kills.all
      (fun k => k.target ≠ KillTarget.processGroup)) = true := by
  decide

/-- C2 (amended): when the child process does not exit before the
wall-clock timeout, the executor sends a single SIGTERM to the immediate
child process (not to its process group), and the returned result has
status `timeout` with exit code 124. -/
theorem executeWithProcess_timeout_result (t : Option Nat) (b : ProcBehavior)
    (h1 : b.spawnError = none) (h2 : b.exitsWithinTimeout = false) :
    (executeWithProcess t b).result.status = ExecStatus.timeout ∧
    (executeWithProcess t b).result.exitCode = 124 ∧
    (executeWithProcess t b).kills =
      [{ signal := "SIGTERM", target := KillTarget.childProcess }] := by
  simp [executeWithProcess, h1, h2]

/-- C2 witness: the amended timeout behaviour at a concrete run. -/
theorem executeWithProcess_timeout_result_witness :
    (executeWithProcess (some 10000)
      { spawnError := none, stdoutChunks := ["partial"], stderrChunks := [],
        exitsWithinTimeout := false, exitCode := none, elapsedMs := 10002 }).result.status = ExecStatus.timeout ∧
    (executeWithProcess (some 10000)
      { spawnError := none, stdoutChunks := ["partial"], stderrChunks := [],
        exitsWithinTimeout := false, exitCode := none, elapsedMs := 10002 }).result.exitCode = 124 ∧
    (executeWithProcess (some 10000)
      { spawnError := none, stdoutChunks := ["partial"], stderrChunks := [],
        exitsWithinTimeout := false, exitCode := none, elapsedMs := 10002 }).kills =
      [{ signal := "SIGTERM", target := KillTarget.childProcess }] :=
  executeWithProcess_timeout_result (some 10000) _ rfl rfl

/-- C7 counterexample: a concrete run that streams two megabytes to stdout
still resolves with status `success`, the full (untruncated) output, and
no early termination — there is no buffer bound at all. -/
theorem executeWithProcess_large_output_not_truncated :
    (executeWithProcess none
      { spawnError := none, stdoutChunks := [String.mk (List.replicate 2097152 'a')],
        stderrChunks := [], exitsWithinTimeout := true, exitCode := some 0,
        elapsedMs := 7 }).result.status = ExecStatus.success ∧
    1048576 < (executeWithProcess none
      { spawnError := none, stdoutChunks := [String.mk (List.replicate 2097152 'a')],
        stderrChunks := [], exitsWithinTimeout := true, exitCode := some 0,
        elapsedMs := 7 }).result.stdout.length ∧
    (executeWithProcess none
      { spawnError := none, stdoutChunks := [String.mk (List.replicate 2097152 'a')],
        stderrChunks := [], exitsWithinTimeout := true, exitCode := some 0,
        elapsedMs := 7 }).kills = [] := by
  have hlen : ∀ n : Nat,
      (executeWithProcess none
        { spawnError := none, stdoutChunks := [String.mk (List.replicate n 'a')],
          stderrChunks := [], exitsWithinTimeout := true, exitCode := some 0,
          elapsedMs := 7 }).result.stdout.length = n := by
    intro n
    simp [executeWithProcess, String.length]
  refine ⟨rfl, ?_, rfl⟩
  rw [hlen 2097152]
  norm_num

/-- C7 (amended): the captured output is unbounded — for every size there
is a successful run whose stdout is at least that large, with no kill sent
— and the resolved status never depends on the output chunks at all (so
overflowing output can neither terminate a run early nor mark it
`error`). -/
theorem executeWithProcess_output_unbounded :
    (∀ n : Nat, ∃ b : ProcBehavior,
      (executeWithProcess none b).result.status = ExecStatus.success ∧
      n ≤ (executeWithProcess none b).result.stdout.length ∧
      (executeWithProcess none b).kills = []) ∧
    (∀ (b : ProcBehavior) (chunks : List String),
      (executeWithProcess none { b with stdoutChunks := chunks }).result.status =
        (executeWithProcess none b).result.status) := by
  constructor
  · intro n
    refine ⟨{ spawnError := none, stdoutChunks := [String.mk (List.replicate n 'a')],
              stderrChunks := [], exitsWithinTimeout := true, exitCode := some 0,
              elapsedMs := 0 }, rfl, ?_, rfl⟩
    simp [executeWithProcess, String.length]
  · intro b chunks
    cases hs : b.spawnError <;> cases he : b.exitsWithinTimeout <;>
      simp [executeWithProcess, hs, he]

/-- C8 counterexample: two different Python jobs materialized in the same
`Date.now()` millisecond receive the very same temp path in the shared
temp directory, so their executions read and write the same file. -/
theorem pythonTempFile_collision :
    (⟨"print(1)", 1700000000000⟩ : PyJob) ≠ (⟨"print(2)", 1700000000000⟩ : PyJob) ∧
    PyJob.tempPath "/tmp" ⟨"print(1)", 1700000000000⟩ =
      PyJob.tempPath "/tmp" ⟨"print(2)", 1700000000000⟩ := by
  exact ⟨by decide, rfl⟩

/-- C8 (amended): the temp path of a Python job is determined by the
`Date.now()` millisecond alone — two paths are equal exactly when the
printed timestamps are equal, regardless of the jobs' contents.  In
particular same-millisecond jobs share one path (no per-job isolation)
and jobs whose timestamps print differently get distinct paths. -/
theorem pythonTempFile_depends_only_on_timestamp (osTmp : String) (j1 j2 : PyJob) :
    PyJob.tempPath osTmp j1 = PyJob.tempPath osTmp j2 ↔
      toString j1.submitMs = toString j2.submitMs := by
  constructor
  · intro h
    have hd := congrArg String.data h
    simp only [PyJob.tempPath, pythonTempFile, String.data_append] at hd
    have h1 := List.append_cancel_right hd
    have h2 := List.append_cancel_left h1
    exact congrArg (fun l => String.mk l) h2
  · intro h
    simp only [PyJob.tempPath, pythonTempFile, h]

/-- C9: for every language without a dedicated `switch` case in `runCode` —
and the compiled languages c, cpp, java, go and rust have none — the
default branch returns an immediate result with status `success` and exit
code 0 whose stdout is the canned appears-valid message with a source
preview, never dispatching to any executor. -/
theorem runCode_default_is_canned (language code : String)
    (h : lowerAscii language ∉ handledLanguages) :
    runCode language code =
      RunDispatch.immediate
        { status := .success, stdout := cannedStdout language code,
          stderr := "", exitCode := 0, executionTimeMs := 0 } ∧
    ∀ l ∈ ["c", "cpp", "java", "go", "rust"], l ∉ handledLanguages := by
  refine ⟨?_, by decide⟩
  simp only [handledLanguages, List.mem_cons, List.not_mem_nil, or_false, not_or] at h
  obtain ⟨h1, h2, h3, h4, h5, h6, h7, h8, h9, h10, h11, h12, h13, h14, h15, h16⟩ := h
  simp [runCode, h1, h2, h3, h4, h5, h6, h7, h8, h9, h10, h11, h12, h13, h14, h15, h16]

/-- C9 witness: submitting C++ source hits the default branch and returns
the canned success result. -/
theorem runCode_default_is_canned_witness :
    runCode "cpp" "int main() \x7b return 0; \x7d" =
      RunDispatch.immediate
        { status := .success,
          stdout := cannedStdout "cpp" "int main() \x7b return 0; \x7d",
          stderr := "", exitCode := 0, executionTimeMs := 0 } ∧
    ∀ l ∈ ["c", "cpp", "java", "go", "rust"], l ∉ handledLanguages :=
  runCode_default_is_canned "cpp" "int main() \x7b return 0; \x7d" (by decide)

/-- C4 counterexample: the POST `/` submit handler accepts an otherwise
well-formed body whose `sourceFiles` is the empty array — a job id is
returned and a job record is stored, contradicting the claimed
`InvalidRequest` rejection. -/
theorem handleSubmitRoute_accepts_empty_sources :
    handleSubmitRoute
        { workspaceId := "ws-1", language := "python", sourceFiles := some [] }
        "user-1" "job-1" 0 [] =
      (SubmitResponse.accepted "job-1",
       [("job-1",
         { id := "job-1", userId := "user-1", workspaceId := "ws-1",
           language := "python", sourceFiles := [], status := .pending,
           createdAt := 0 })]) := by
  decide

/-- C4 (amended): `CompilationService.submitCompilation` does reject an
empty source list before any job row is inserted — the caller gets the
`At least one source file is required` error and no record is stored —
but the route-level submit handler performs no such check (see the
counterexample). -/
theorem submitCompilation_rejects_empty_sources (userId : String)
    (r : CompilationRequest) (jobId : String) (env : ServiceEnv)
    (hw : r.workspaceId.isEmpty = false) (hl : r.language.isEmpty = false)
    (hf : r.sourceFiles = []) :
    submitCompilation userId r jobId env =
      (.error "At least one source file is required", none) := by
  simp [submitCompilation, validateCompilationRequest, hw, hl, hf]

/-- C4 witness: the amended rejection at a concrete empty submission. -/
theorem submitCompilation_rejects_empty_sources_witness :
    submitCompilation "user-1"
        { workspaceId := "ws-1", language := "python", sourceFiles := [] }
        "job-1" { workspacePerm := .ok (), judge0Submit := .ok "tok", createdAt := 0, now := 1 } =
      (.error "At least one source file is required", none) :=
  submitCompilation_rejects_empty_sources "user-1" _ "job-1" _ rfl rfl rfl

/-- C6: a status query for a job id that does not exist and one for a job
owned by a different principal produce the same NotFound outcome — the
route handler answers the same 404 in both cases, and
`CompilationService.getCompilationStatus` returns `null` in both cases
(its cache hits are re-checked for ownership and fall back to the
ownership-filtered database query). -/
theorem getStatus_no_existence_leak :
    (∀ (store : List (String × RouteJob)) (u j : String),
      (store.lookup j = none ∨ ∃ job, store.lookup j = some job ∧ job.userId ≠ u) →
      handleGetStatus store u j = .notFound "Compilation job not found") ∧
    (∀ (cache : Option ServiceJob) (dbJobs : List ServiceJob) (u j : String),
      (∀ r, cache = some r → r ∈ dbJobs ∧ r.id = j) →
      (∀ r ∈ dbJobs, ¬(r.id = j ∧ r.userId = u)) →
      getCompilationStatus cache dbJobs u j = none) := by
  constructor
  · intro store u j h
    rcases h with h | ⟨job, hj, hu⟩
    · simp [handleGetStatus, h]
    · simp [handleGetStatus, hj, hu]
  · intro cache dbJobs u j hc hdb
    have hfind : dbFindJob dbJobs j u = none := by
      simp only [dbFindJob, List.find?_eq_none]
      intro r hr
      have := hdb r hr
      simp only [Bool.and_eq_true, decide_eq_true_eq]
      intro ⟨hid, huid⟩
      exact this ⟨hid, huid⟩
    cases hcache : cache with
    | none => simp [getCompilationStatus, hfind]
    | some r =>
      by_cases hru : r.userId = u
      · obtain ⟨hmem, hid⟩ := hc r hcache
        exact absurd ⟨hid, hru⟩ (hdb r hmem)
      · simp [getCompilationStatus, hru, hfind]

/-- C6 witness: with a store and database holding one job owned by `bob`,
`alice` gets the same NotFound for that job as for a nonexistent id. -/
theorem getStatus_no_existence_leak_witness :
    (handleGetStatus
      [("job-1", { id := "job-1", userId := "bob", workspaceId := "ws-1",
                   language := "python", sourceFiles := [], status := .pending,
                   createdAt := 0 })] "alice" "job-1" =
        .notFound "Compilation job not found") ∧
    (handleGetStatus
      [("job-1", { id := "job-1", userId := "bob", workspaceId := "ws-1",
                   language := "python", sourceFiles := [], status := .pending,
                   createdAt := 0 })] "alice" "job-9" =
        .notFound "Compilation job not found") ∧
    (getCompilationStatus
      (some { id := "job-1", userId := "bob", workspaceId := "ws-1",
              language := "python", status := .pending, createdAt := 0 })
      [{ id := "job-1", userId := "bob", workspaceId := "ws-1",
         language := "python", status := .pending, createdAt := 0 }]
      "alice" "job-1" = none) := by
  refine ⟨?_, ?_, ?_⟩
  · exact getStatus_no_existence_leak.1 _ "alice" "job-1"
      (Or.inr ⟨{ id := "job-1", userId := "bob", workspaceId := "ws-1",
                 language := "python", sourceFiles := [], status := .pending,
                 createdAt := 0 }, by decide, by decide⟩)
  · exact getStatus_no_existence_leak.1 _ "alice" "job-9" (Or.inl (by decide))
  · exact getStatus_no_existence_leak.2 _ _ "alice" "job-1"
      (fun r hr => by
        cases hr
        exact ⟨by decide, rfl⟩)
      (by decide)

/-- C10: the submission validation outcome depends only on the presence of
workspace id and language, the emptiness of the source list, and the total
source size — not on the content itself.  The malicious-code scan at the
end of `validateCompilationRequest` only produces log warnings, so two
requests of the same shape validate identically whether or not their
content matches any malicious pattern. -/
theorem validateCompilationRequest_ignores_content (r1 r2 : CompilationRequest)
    (hw : r1.workspaceId.isEmpty = r2.workspaceId.isEmpty)
    (hl : r1.language.isEmpty = r2.language.isEmpty)
    (hf : r1.sourceFiles.isEmpty = r2.sourceFiles.isEmpty)
    (hs : totalSize r1.sourceFiles = totalSize r2.sourceFiles) :
    validateCompilationRequest r1 = validateCompilationRequest r2 := by
  simp only [validateCompilationRequest, hw, hl, hf, hs]

/-- C10 witness: a submission whose content trips the scan (`import os`,
`os.system(x)`) and a pattern-free submission of the same size both pass
validation, with identical outcomes. -/
theorem validateCompilationRequest_ignores_content_witness :
    scanWarnings [{ path := "main.py", content := "import os\nos.system(x)" }] ≠ [] ∧
    scanWarnings [{ path := "main.py", content := "print(123456789012345)" }] = [] ∧
    validateCompilationRequest
      { workspaceId := "ws-1", language := "python",
        sourceFiles := [{ path := "main.py", content := "import os\nos.system(x)" }] } =
      validateCompilationRequest
      { workspaceId := "ws-1", language := "python",
        sourceFiles := [{ path := "main.py", content := "print(123456789012345)" }] } ∧
    validateCompilationRequest
      { workspaceId := "ws-1", language := "python",
        sourceFiles := [{ path := "main.py", content := "import os\nos.system(x)" }] } =
      Except.ok () := by
  refine ⟨by decide, by decide, ?_, rfl⟩
  exact validateCompilationRequest_ignores_content _ _ rfl rfl rfl (by decide)

/-- Polling outcomes that keep the loop going: a request error or a
still-processing Judge0 status. -/
def nonTerminalPoll : PollOutcome → Bool
  | .requestError => true
  | .response statusId _ _ _ _ _ => stillProcessing statusId

/-- Unfolding one iteration of `pollAux`. -/
theorem pollAux_step (resp : Nat → PollOutcome) (attempts f : Nat) :
    pollAux resp attempts (f + 1) =
      (match resp (attempts + 1) with
       | .requestError =>
         if attempts + 1 < maxAttempts then pollAux resp (attempts + 1) f
         else pollFailedUpdate
       | .response sid a b c d e =>
         if stillProcessing sid then
           if attempts + 1 < maxAttempts then pollAux resp (attempts + 1) f
           else pollTimeoutUpdate
         else judge0CompleteUpdate sid a b c d e) := rfl

/-- When every attempt up to the bound keeps the loop going, the final
(30th) attempt decides between the `timeout` and `error` updates. -/
theorem pollAux_exhausts (resp : Nat → PollOutcome) :
    ∀ (fuel attempts : Nat), attempts + fuel = maxAttempts → attempts < maxAttempts →
    (∀ n, attempts < n → n ≤ maxAttempts → nonTerminalPoll (resp n) = true) →
    pollAux resp attempts fuel =
      (match resp maxAttempts with
       | .requestError => pollFailedUpdate
       | .response _ _ _ _ _ _ => pollTimeoutUpdate) := by
  intro fuel
  induction fuel with
  | zero => intro attempts hsum hlt _; omega
  | succ f ih =>
    intro attempts hsum hlt hresp
    have hnt := hresp (attempts + 1) (Nat.lt_succ_self _) (by omega)
    rw [pollAux_step]
    cases hr : resp (attempts + 1) with
    | requestError =>
      by_cases h2 : attempts + 1 < maxAttempts
      · simp only [h2, if_true]
        exact ih (attempts + 1) (by omega) h2 (fun n hn1 hn2 => hresp n (by omega) hn2)
      · have heq : attempts + 1 = maxAttempts := by omega
        rw [heq] at hr
        simp only [h2, if_false, hr]
    | response sid a b c d e =>
      rw [hr] at hnt
      simp only [nonTerminalPoll] at hnt
      simp only [hnt, if_true]
      by_cases h2 : attempts + 1 < maxAttempts
      · simp only [h2, if_true]
        exact ih (attempts + 1) (by omega) h2 (fun n hn1 hn2 => hresp n (by omega) hn2)
      · have heq : attempts + 1 = maxAttempts := by omega
        rw [heq] at hr
        simp only [h2, if_false, hr]

/-- C5 counterexample: when every poll attempt fails (remote service
unreachable — so no terminal remote result is ever reported), exhausting
the 30-attempt bound writes the `error` update, not `timeout`. -/
theorem pollJudge0Results_errors_give_error :
    pollJudge0Results (fun _ => PollOutcome.requestError) = pollFailedUpdate ∧
    (pollJudge0Results (fun _ => PollOutcome.requestError)).status ≠ JobStatus.timeout := by
  exact ⟨rfl, by decide⟩

/-- C5 (amended): the poller runs at a fixed 1000 ms interval for at most
30 attempts; when no attempt yields a terminal remote result, the final
attempt decides the job's fate — a still-processing response at the bound
writes `timeout`, while a failing request at the bound writes `error`
(`Failed to get compilation results`). -/
theorem pollJudge0Results_bound (resp : Nat → PollOutcome)
    (h : ∀ n, 1 ≤ n → n ≤ maxAttempts → nonTerminalPoll (resp n) = true) :
    pollJudge0Results resp =
      (match resp maxAttempts with
       | .requestError => pollFailedUpdate
       | .response _ _ _ _ _ _ => pollTimeoutUpdate) ∧
    maxAttempts = 30 ∧ pollIntervalMs = 1000 := by
  refine ⟨?_, rfl, rfl⟩
  exact pollAux_exhausts resp maxAttempts 0 (by omega) (by decide)
    (fun n hn1 hn2 => h n hn1 hn2)

/-- C5 witness: a remote service that forever answers "In Queue" drives
the job to the `timeout` update after the 30-attempt bound. -/
theorem pollJudge0Results_bound_witness :
    pollJudge0Results (fun _ => PollOutcome.response (some 1) none none none 0 0) =
      pollTimeoutUpdate ∧
    maxAttempts = 30 ∧ pollIntervalMs = 1000 := by
  have h := pollJudge0Results_bound (fun _ => PollOutcome.response (some 1) none none none 0 0)
    (fun n _ _ => rfl)
  exact ⟨h.1.trans rfl, h.2⟩

/-- The fallback write is terminal and stamps the completion time. -/
theorem applyLocalResult_terminal (job : RouteJob) (r : LocalRunResult)
    (t a m : Nat) :
    (applyLocalResult job r t a m).status.isTerminal = true ∧
    (applyLocalResult job r t a m).completedAt = some t := by
  refine ⟨?_, rfl⟩
  cases hr : r.status <;>
    simp [applyLocalResult, ExecStatus.toJobStatus, hr, JobStatus.isTerminal]

/-- `processCompilation`'s final job record is always terminal and
stamped with the completion time. -/
theorem processCompilationFinal_terminal (job : RouteJob) (env : Part008Env) :
    (processCompilationFinal job env).status.isTerminal = true ∧
    (processCompilationFinal job env).completedAt = some env.tEnd := by
  cases hL : getJudge0LanguageId job.language with
  | none =>
    have he : processCompilationFinal job env =
        applyLocalResult { job with status := .running }
          (executeLocally env.runOutcome) env.tEnd env.randTime env.randMem := by
      simp [processCompilationFinal, hL]
    rw [he]
    exact applyLocalResult_terminal _ _ _ _ _
  | some lid =>
    cases hsub : env.submission with
    | networkError =>
      have he : processCompilationFinal job env =
          applyLocalResult { job with status := .running }
            (executeLocally env.runOutcome) env.tEnd env.randTime env.randMem := by
        simp [processCompilationFinal, hL, hsub]
      rw [he]
      exact applyLocalResult_terminal _ _ _ _ _
    | notOk =>
      have he : processCompilationFinal job env =
          applyLocalResult { job with status := .running }
            (executeLocally env.runOutcome) env.tEnd env.randTime env.randMem := by
        simp [processCompilationFinal, hL, hsub]
      rw [he]
      exact applyLocalResult_terminal _ _ _ _ _
    | ok sid a b c d e =>
      constructor
      · simp only [processCompilationFinal, hL, hsub]
        by_cases h : sid = some (3 : Int) <;> simp [h, JobStatus.isTerminal]
      · simp [processCompilationFinal, hL, hsub]

/-- Every update the poller can finish with is terminal. -/
theorem pollAux_terminal (resp : Nat → PollOutcome) :
    ∀ (fuel attempts : Nat), (pollAux resp attempts fuel).status.isTerminal = true := by
  intro fuel
  induction fuel with
  | zero => intro attempts; rfl
  | succ f ih =>
    intro attempts
    rw [pollAux_step]
    cases resp (attempts + 1) with
    | requestError =>
      by_cases h2 : attempts + 1 < maxAttempts
      · simp only [h2, if_true]; exact ih _
      · simp [h2, pollFailedUpdate, JobStatus.isTerminal]
    | response sid a b c d e =>
      by_cases hs : stillProcessing sid
      · by_cases h2 : attempts + 1 < maxAttempts
        · simp only [hs, h2, if_true]; exact ih _
        · simp [hs, h2, pollTimeoutUpdate, JobStatus.isTerminal]
      · have hs2 : stillProcessing sid = false := by simpa using hs
        simp only [hs2, Bool.false_eq_true, if_false]
        by_cases h3 : sid = some (3 : Int) <;>
          simp [h3, judge0CompleteUpdate, JobStatus.isTerminal]

/-- C1 counterexample: in `CompilationService.submitCompilation`, a failed
Judge0 submission for a fully valid Python request is surfaced directly:
the job row is marked `error` with the remote submission-failure message
as its stderr, and the same failure is re-thrown to the caller — no local
fallback runs. -/
theorem submitCompilation_surfaces_remote_failure :
    submitCompilation "user-1"
        { workspaceId := "ws-1", language := "python",
          sourceFiles := [{ path := "main.py", content := "print(42)" }] }
        "job-1"
        { workspacePerm := .ok (), judge0Submit := .error (), createdAt := 0, now := 5 } =
      (.error "Failed to submit compilation job",
       some { id := "job-1", userId := "user-1", workspaceId := "ws-1",
              language := "python", status := .error,
              stderr := some "Failed to submit compilation job",
              createdAt := 0, completedAt := some 5 }) := by
  rfl

/-- C1 (amended): in the route orchestrator (`processCompilation`), a
failed remote submission — fetch rejection, non-OK response, or a language
without a Judge0 id — dispatches the job to the local executor: the
terminal record carries exactly the local run's status, stdout, stderr and
exit code, and is completed; the remote failure never becomes the job's
result there.  (`CompilationService.submitCompilation` instead surfaces
the failure to the caller — see the counterexample.) -/
theorem processCompilation_falls_back_locally (job : RouteJob) (env : Part008Env)
    (h : env.submission = .networkError ∨ env.submission = .notOk ∨
         getJudge0LanguageId job.language = none) :
    processCompilationFinal job env =
      applyLocalResult { job with status := .running }
        (executeLocally env.runOutcome) env.tEnd env.randTime env.randMem ∧
    (processCompilationFinal job env).status =
      (executeLocally env.runOutcome).status.toJobStatus ∧
    (processCompilationFinal job env).stdout = some (executeLocally env.runOutcome).stdout ∧
    (processCompilationFinal job env).stderr = some (executeLocally env.runOutcome).stderr ∧
    (processCompilationFinal job env).exitCode = some (executeLocally env.runOutcome).exitCode ∧
    (processCompilationFinal job env).status.isTerminal = true ∧
    (processCompilationFinal job env).completedAt = some env.tEnd := by
  have hmain : processCompilationFinal job env =
      applyLocalResult { job with status := .running }
        (executeLocally env.runOutcome) env.tEnd env.randTime env.randMem := by
    rcases h with h | h | h
    · cases hL : getJudge0LanguageId job.language <;>
        simp [processCompilationFinal, hL, h]
    · cases hL : getJudge0LanguageId job.language <;>
        simp [processCompilationFinal, hL, h]
    · simp [processCompilationFinal, h]
  refine ⟨hmain, ?_, ?_, ?_, ?_, ?_, ?_⟩
  · rw [hmain]; rfl
  · rw [hmain]; rfl
  · rw [hmain]; rfl
  · rw [hmain]; rfl
  · rw [hmain]; exact (applyLocalResult_terminal _ _ _ _ _).1
  · rw [hmain]; rfl

/-- C1 witness: with the remote judge answering non-OK and a successful
local Python run, the job completes with the local result. -/
theorem processCompilation_falls_back_locally_witness :
    processCompilationFinal
        { id := "job-1", userId := "user-1", workspaceId := "ws-1",
          language := "python",
          sourceFiles := [{ path := "main.py", content := "print(42)" }],
          status := .pending, createdAt := 0 }
        { submission := .notOk,
          runOutcome := .ok { status := .success, stdout := "42\n", stderr := "",
                              exitCode := 0, executionTimeMs := 12 },
          tEnd := 5, randTime := 300, randMem := 2000 } =
      applyLocalResult
        { id := "job-1", userId := "user-1", workspaceId := "ws-1",
          language := "python",
          sourceFiles := [{ path := "main.py", content := "print(42)" }],
          status := .running, createdAt := 0 }
        (executeLocally (.ok { status := .success, stdout := "42\n", stderr := "",
                               exitCode := 0, executionTimeMs := 12 }))
        5 300 2000 ∧
    (processCompilationFinal
        { id := "job-1", userId := "user-1", workspaceId := "ws-1",
          language := "python",
          sourceFiles := [{ path := "main.py", content := "print(42)" }],
          status := .pending, createdAt := 0 }
        { submission := .notOk,
          runOutcome := .ok { status := .success, stdout := "42\n", stderr := "",
                              exitCode := 0, executionTimeMs := 12 },
          tEnd := 5, randTime := 300, randMem := 2000 }).status.isTerminal = true := by
  have h := processCompilation_falls_back_locally
    { id := "job-1", userId := "user-1", workspaceId := "ws-1",
      language := "python",
      sourceFiles := [{ path := "main.py", content := "print(42)" }],
      status := .pending, createdAt := 0 }
    { submission := .notOk,
      runOutcome := .ok { status := .success, stdout := "42\n", stderr := "",
                          exitCode := 0, executionTimeMs := 12 },
      tEnd := 5, randTime := 300, randMem := 2000 }
    (Or.inr (Or.inl rfl))
  exact ⟨h.1, h.2.2.2.2.2.1⟩

/-- C3: `completedAt` is set exactly on the terminal states.  Along
`processCompilation`'s lifecycle (stored `pending` record, `running`
mutation, terminal record) the invariant holds at every point; every
update the service's poller writes is terminal (and `updateJobStatus`
stamps `completed_at` when writing it); and any row `submitCompilation`
leaves behind satisfies the invariant as well. -/
theorem completedAt_iff_terminal :
    (∀ (job : RouteJob) (env : Part008Env), job.status = .pending →
      job.completedAt = none →
      ∀ s ∈ processCompilationTrace job env,
        (s.completedAt.isSome ↔ s.status.isTerminal = true)) ∧
    (∀ resp : Nat → PollOutcome, (pollJudge0Results resp).status.isTerminal = true) ∧
    (∀ (row : ServiceJob) (resp : Nat → PollOutcome) (now : Nat) (j : ServiceJob),
      updateJobStatus (some row) (pollJudge0Results resp) now = some j →
      (j.completedAt.isSome ↔ j.status.isTerminal = true)) ∧
    (∀ (userId : String) (r : CompilationRequest) (jobId : String) (env : ServiceEnv)
      (j : ServiceJob), (submitCompilation userId r jobId env).2 = some j →
      (j.completedAt.isSome ↔ j.status.isTerminal = true)) := by
  refine ⟨?_, ?_, ?_, ?_⟩
  · intro job env hp hc s hs
    simp only [processCompilationTrace, List.mem_cons, List.not_mem_nil, or_false] at hs
    rcases hs with hs | hs | hs
    · subst hs; rw [hp, hc]; simp [JobStatus.isTerminal]
    · subst hs; simp [hc, JobStatus.isTerminal]
    · subst hs
      have h := processCompilationFinal_terminal job env
      rw [h.1, h.2]
      simp
  · intro resp
    exact pollAux_terminal resp maxAttempts 0
  · intro row resp now j hj
    simp only [updateJobStatus, Option.map, Option.some.injEq] at hj
    subst hj
    simp [pollAux_terminal resp maxAttempts 0, pollJudge0Results]
  · intro userId r jobId env j hj
    unfold submitCompilation at hj
    cases hv : validateCompilationRequest r with
    | error e => rw [hv] at hj; simp at hj
    | ok u =>
      rw [hv] at hj
      cases hw : env.workspacePerm with
      | error e => rw [hw] at hj; simp at hj
      | ok u2 =>
        rw [hw] at hj
        cases hlk : serviceLanguages.lookup r.language with
        | none => rw [hlk] at hj; simp at hj
        | some lid =>
          rw [hlk] at hj
          cases hs : env.judge0Submit with
          | error e =>
            rw [hs] at hj
            simp only [Option.some.injEq] at hj
            subst hj
            simp [JobStatus.isTerminal]
          | ok tok =>
            rw [hs] at hj
            simp only [Option.some.injEq] at hj
            subst hj
            simp [JobStatus.isTerminal]

/-- C3 witness: the invariant at concrete points — the terminal record of
a concrete `processCompilation` run, a concrete poller update, and the row
left by a concrete failed submission. -/
theorem completedAt_iff_terminal_witness :
    ((processCompilationFinal
        { id := "job-1", userId := "user-1", workspaceId := "ws-1",
          language := "python",
          sourceFiles := [{ path := "main.py", content := "print(42)" }],
          status := .pending, createdAt := 0 }
        { submission := .networkError,
          runOutcome := .error "spawn python3 ENOENT",
          tEnd := 9, randTime := 500, randMem := 4000 }).completedAt.isSome ↔
      (processCompilationFinal
        { id := "job-1", userId := "user-1", workspaceId := "ws-1",
          language := "python",
          sourceFiles := [{ path := "main.py", content := "print(42)" }],
          status := .pending, createdAt := 0 }
        { submission := .networkError,
          runOutcome := .error "spawn python3 ENOENT",
          tEnd := 9, randTime := 500, randMem := 4000 }).status.isTerminal = true) ∧
    (pollJudge0Results (fun _ => PollOutcome.requestError)).status.isTerminal = true := by
  constructor
  · exact completedAt_iff_terminal.1
      { id := "job-1", userId := "user-1", workspaceId := "ws-1",
        language := "python",
        sourceFiles := [{ path := "main.py", content := "print(42)" }],
        status := .pending, createdAt := 0 }
      { submission := .networkError,
        runOutcome := .error "spawn python3 ENOENT",
        tEnd := 9, randTime := 500, randMem := 4000 }
      rfl rfl _ (by simp [processCompilationTrace])
  · exact completedAt_iff_terminal.2.1 (fun _ => PollOutcome.requestError)

end AiCompilerIde
